import Mathlib

/-!
Verification development for `thumbnail_maker.py`.

The script scrapes a journal listing page for DOIs, downloads each
article's image asset, derives a square thumbnail (pad or crop mode),
and uploads the result.  The definitions below are a shallow embedding
of the functions of that script; machine integers are modelled as `Nat`
(all the arithmetic in the script is on non-negative sizes/offsets, and
Python `//` on non-negative operands is `Nat` division), Python
exceptions are modelled as an `Except` error channel that distinguishes
ordinary `Exception`s (caught by `except Exception`) from `SystemExit`
(raised by `exit(1)` inside `exit_error`, and NOT caught by
`except Exception`).
-/

/-- An RGB pixel, as the 8-bit triples PIL uses. -/
abbrev Rgb := Nat × Nat × Nat

/-- A decoded bitmap: width, height and a pixel map.  Pixels are stored as a
total function; every image built by the embedding is normalised so that the
pixel map returns `(0, 0, 0)` outside the `width × height` rectangle
(PIL images simply have no pixels there). -/
@[ext]
structure Img where
  width : Nat
  height : Nat
  px : Nat → Nat → Rgb

/-- Builds a normalised image from a pixel map. -/
def mkImg (w h : Nat) (f : Nat → Nat → Rgb) : Img :=
  ⟨w, h, fun i j => if i < w ∧ j < h then f i j else (0, 0, 0)⟩

/-- The image is normalised: out-of-range pixels read `(0, 0, 0)`. -/
def Img.WF (img : Img) : Prop :=
  ∀ i j, img.width ≤ i ∨ img.height ≤ j → img.px i j = (0, 0, 0)

/-- The `Image.new(mode, (w, h), color)` call of PIL: a `w × h` canvas filled
entirely with `color`.  The mode string is carried but does not affect the
geometry. -/
def Image.new (_mode : String) (w h : Nat) (color : Rgb) : Img :=
  mkImg w h (fun _ _ => color)

/-- The `dst.paste(src, (ox, oy))` call of PIL, for the non-negative offsets
the script produces: inside the pasted box the source pixel shows, elsewhere
the destination pixel. -/
def Img.paste (dst src : Img) (ox oy : Nat) : Img :=
  mkImg dst.width dst.height (fun i j =>
    if ox ≤ i ∧ i < ox + src.width ∧ oy ≤ j ∧ j < oy + src.height
    then src.px (i - ox) (j - oy)
    else dst.px i j)

/-- A Python run-time error.  `exc` is an ordinary `Exception` (caught by the
script's `except Exception` handler); `sysExit` is the `SystemExit` raised by
`exit(1)` in `exit_error`, which `except Exception` does not catch. -/
inductive PyErr where
  | exc (msg : String)
  | sysExit (code : Nat)
deriving DecidableEq, Repr

/-- A resampling stub adequate for the library contracts assumed in the
theorems below: it reports the requested dimensions and is the identity when
asked for the image's own size (structure eta). -/
def stubResize (img : Img) (w h : Nat) : Img :=
  { img with width := w, height := h }

/-- The `make_thumbnail` function (lines 175-201), with the two PIL library
calls it delegates to passed in as parameters: `resize` models
`Image.resize((w, h), Image.ANTIALIAS)` and `fit` models
`ImageOps.fit(img, (w, h), Image.ANTIALIAS)`.  `mode` strings other than
`"pad"` and `"crop"` reach `exit_error`, i.e. `SystemExit(1)`. -/
def make_thumbnail (resize fit : Img → Nat → Nat → Img) (img : Img)
    (min_size : Nat) (fill_color : Rgb) (mode : String) : Except PyErr Img :=
  if mode = "pad" then
    let x := img.width
    let y := img.height
    let size := max min_size (max x y)
    let thumbnail := Image.new "RGB" size size fill_color
    let thumbnail := thumbnail.paste img ((size - x) / 2) ((size - y) / 2)
    let thumbnail := resize thumbnail min_size min_size
    Except.ok thumbnail
  else if mode = "crop" then
    Except.ok (fit img min_size min_size)
  else
    Except.error (PyErr.sysExit 1)

/-- The intermediate canvas the pad branch composes before the final
resample: a `size × size` fill-coloured canvas (with
`size = max min_size (max width height)`) holding the unscaled source pasted
at `((size - width) / 2, (size - height) / 2)`. -/
def padCanvas (img : Img) (min_size : Nat) (fill_color : Rgb) : Img :=
  let size := max min_size (max img.width img.height)
  (Image.new "RGB" size size fill_color).paste img
    ((size - img.width) / 2) ((size - img.height) / 2)

/-- C1: for every input image, every target edge and both the pad and the
crop mode, `make_thumbnail` succeeds and returns an image whose width and
height both equal the target edge exactly, assuming only the PIL dimension
contracts of `resize` and `ImageOps.fit` (each returns an image of the
requested size). -/
theorem make_thumbnail_square (resize fit : Img → Nat → Nat → Img)
    (hres : ∀ i w h, (resize i w h).width = w ∧ (resize i w h).height = h)
    (hfit : ∀ i w h, (fit i w h).width = w ∧ (fit i w h).height = h)
    (img : Img) (min_size : Nat) (fill_color : Rgb) (mode : String)
    (hmode : mode = "pad" ∨ mode = "crop") :
    ∃ t, make_thumbnail resize fit img min_size fill_color mode = Except.ok t
      ∧ t.width = min_size ∧ t.height = min_size := by
  rcases hmode with h | h <;> subst h
  · exact ⟨_, rfl, (hres _ _ _).1, (hres _ _ _).2⟩
  · exact ⟨_, rfl, (hfit _ _ _).1, (hfit _ _ _).2⟩

/-- Witness for C1: instantiating the resampler contracts with `stubResize`
and a concrete 3 × 2 image with target edge 5, pad mode. -/
theorem make_thumbnail_square_witness :
    ∃ t, make_thumbnail stubResize stubResize (mkImg 3 2 (fun _ _ => (9, 9, 9)))
        5 (255, 255, 255) "pad" = Except.ok t ∧ t.width = 5 ∧ t.height = 5 :=
  make_thumbnail_square stubResize stubResize
    (fun _ _ _ => ⟨rfl, rfl⟩) (fun _ _ _ => ⟨rfl, rfl⟩)
    (mkImg 3 2 (fun _ _ => (9, 9, 9))) 5 (255, 255, 255) "pad" (Or.inl rfl)

/-- Width of the pad-mode intermediate canvas. -/
theorem padCanvas_width (img : Img) (min_size : Nat) (fill : Rgb) :
    (padCanvas img min_size fill).width
      = max min_size (max img.width img.height) := rfl

/-- Height of the pad-mode intermediate canvas. -/
theorem padCanvas_height (img : Img) (min_size : Nat) (fill : Rgb) :
    (padCanvas img min_size fill).height
      = max min_size (max img.width img.height) := rfl

/-- Pixel content of the pad-mode intermediate canvas: inside the centred
paste box the unscaled source shows, everywhere else the fill colour. -/
theorem padCanvas_px (img : Img) (min_size : Nat) (fill : Rgb) (i j : Nat)
    (hi : i < max min_size (max img.width img.height))
    (hj : j < max min_size (max img.width img.height)) :
    (padCanvas img min_size fill).px i j
      = if (max min_size (max img.width img.height) - img.width) / 2 ≤ i
           ∧ i < (max min_size (max img.width img.height) - img.width) / 2 + img.width
           ∧ (max min_size (max img.width img.height) - img.height) / 2 ≤ j
           ∧ j < (max min_size (max img.width img.height) - img.height) / 2 + img.height
        then img.px (i - (max min_size (max img.width img.height) - img.width) / 2)
                    (j - (max min_size (max img.width img.height) - img.height) / 2)
        else fill := by
  simp only [padCanvas, Img.paste, Image.new, mkImg]
  rw [if_pos ⟨hi, hj⟩]
  split
  · rfl
  · rw [if_pos ⟨hi, hj⟩]

/-- C2: in pad mode `make_thumbnail` resamples exactly the intermediate
canvas of side `max(min_size, x, y)` that is filled with the fill colour and
holds the unscaled source pasted at `((size - x) / 2, (size - y) / 2)` (floor
division); the final result has the target dimensions; and on a 400 × 300
source with target edge 200 the canvas is 400 × 400, the paste offset is
`(0, 50)`, and the output is 200 × 200. -/
theorem pad_mode_pipeline (resize fit : Img → Nat → Nat → Img)
    (hres : ∀ i w h, (resize i w h).width = w ∧ (resize i w h).height = h)
    (img : Img) (min_size : Nat) (fill : Rgb) (p : Nat → Nat → Rgb) :
    make_thumbnail resize fit img min_size fill "pad"
      = Except.ok (resize (padCanvas img min_size fill) min_size min_size)
    ∧ (padCanvas img min_size fill).width = max min_size (max img.width img.height)
    ∧ (padCanvas img min_size fill).height = max min_size (max img.width img.height)
    ∧ (∀ i j, i < max min_size (max img.width img.height) →
         j < max min_size (max img.width img.height) →
         (padCanvas img min_size fill).px i j
           = if (max min_size (max img.width img.height) - img.width) / 2 ≤ i
                ∧ i < (max min_size (max img.width img.height) - img.width) / 2 + img.width
                ∧ (max min_size (max img.width img.height) - img.height) / 2 ≤ j
                ∧ j < (max min_size (max img.width img.height) - img.height) / 2 + img.height
             then img.px (i - (max min_size (max img.width img.height) - img.width) / 2)
                         (j - (max min_size (max img.width img.height) - img.height) / 2)
             else fill)
    ∧ (resize (padCanvas img min_size fill) min_size min_size).width = min_size
    ∧ (resize (padCanvas img min_size fill) min_size min_size).height = min_size
    ∧ (padCanvas (mkImg 400 300 p) 200 (255, 255, 255)).width = 400
    ∧ (max 200 (max 400 300) - 400) / 2 = 0
    ∧ (max 200 (max 400 300) - 300) / 2 = 50
    ∧ (∀ i j, i < 400 → j < 400 →
         (padCanvas (mkImg 400 300 p) 200 (255, 255, 255)).px i j
           = if i < 400 ∧ 50 ≤ j ∧ j < 350 then p i (j - 50) else (255, 255, 255))
    ∧ (resize (padCanvas (mkImg 400 300 p) 200 (255, 255, 255)) 200 200).width = 200
    ∧ (resize (padCanvas (mkImg 400 300 p) 200 (255, 255, 255)) 200 200).height = 200 := by
  refine ⟨rfl, rfl, rfl, padCanvas_px img min_size fill, (hres _ _ _).1, (hres _ _ _).2,
    rfl, rfl, rfl, ?_, (hres _ _ _).1, (hres _ _ _).2⟩
  intro i j hi hj
  have h := padCanvas_px (mkImg 400 300 p) 200 (255, 255, 255) i j
    (by simp only [mkImg]; omega) (by simp only [mkImg]; omega)
  simp only [mkImg] at h ⊢
  rw [h]
  simp only [show (max 200 (max 400 300) - 400) / 2 = 0 from by omega,
    show (max 200 (max 400 300) - 300) / 2 = 50 from by omega,
    Nat.sub_zero, Nat.zero_add, Nat.zero_le, true_and]
  split_ifs <;> first | rfl | (exfalso; omega)

/-- Witness for C2: the pipeline equality instantiated with `stubResize` and
a concrete 400 × 300 source. -/
theorem pad_mode_pipeline_witness :
    make_thumbnail stubResize stubResize (mkImg 400 300 (fun _ _ => (1, 2, 3)))
        200 (255, 255, 255) "pad"
      = Except.ok (stubResize
          (padCanvas (mkImg 400 300 (fun _ _ => (1, 2, 3))) 200 (255, 255, 255))
          200 200) :=
  (pad_mode_pipeline stubResize stubResize (fun _ _ _ => ⟨rfl, rfl⟩)
    (mkImg 400 300 (fun _ _ => (1, 2, 3))) 200 (255, 255, 255)
    (fun _ _ => (1, 2, 3))).1

/-- Pasting a normalised image at offset `(0, 0)` onto a fresh canvas of the
image's own dimensions reproduces the image exactly, whatever the fill. -/
theorem paste_full (img : Img) (hwf : Img.WF img) (fill : Rgb) :
    (Image.new "RGB" img.width img.height fill).paste img 0 0 = img := by
  refine Img.ext rfl rfl ?_
  funext i j
  simp only [Img.paste, Image.new, mkImg]
  by_cases h : i < img.width ∧ j < img.height
  · rw [if_pos h, if_pos ⟨Nat.zero_le i, by omega, Nat.zero_le j, by omega⟩]
    rfl
  · rw [if_neg h]
    exact (hwf i j (by omega)).symm

/-- C8: on a perfectly square input whose side equals the target edge,
`make_thumbnail` returns the input image itself in pad mode and in crop mode
alike — no padding is added (the paste covers the whole canvas) and no
cropping occurs — so the two modes produce identical output.  The resampler
hypotheses are the PIL facts that `resize` and `ImageOps.fit` are the
identity when the requested size equals the image's own size. -/
theorem square_input_symmetry (resize fit : Img → Nat → Nat → Img)
    (hres : ∀ i, resize i i.width i.height = i)
    (hfit : ∀ i, fit i i.width i.height = i)
    (img : Img) (e : Nat) (fill : Rgb)
    (hw : img.width = e) (hh : img.height = e) (hwf : Img.WF img) :
    make_thumbnail resize fit img e fill "pad" = Except.ok img
    ∧ make_thumbnail resize fit img e fill "crop" = Except.ok img := by
  subst hw
  constructor
  · simp only [make_thumbnail]
    rw [if_pos trivial, hh]
    simp only [Nat.max_self, Nat.sub_self, Nat.zero_div]
    rw [show Image.new "RGB" img.width img.width fill
          = Image.new "RGB" img.width img.height fill from by rw [hh]]
    rw [paste_full img hwf fill]
    rw [show resize img img.width img.width
          = resize img img.width img.height from by rw [hh]]
    rw [hres img]
  · simp only [make_thumbnail]
    rw [if_pos trivial]
    rw [show fit img img.width img.width
          = fit img img.width img.height from by rw [hh]]
    rw [hfit img, if_neg (by decide)]

/-- A concrete 3 × 3 single-colour image used by witnesses. -/
def sq3 : Img := mkImg 3 3 (fun _ _ => (7, 7, 7))

/-- Witness for C8: the 3 × 3 image with target edge 3 under `stubResize`. -/
theorem square_input_symmetry_witness :
    make_thumbnail stubResize stubResize sq3 3 (255, 255, 255) "pad"
      = Except.ok sq3
    ∧ make_thumbnail stubResize stubResize sq3 3 (255, 255, 255) "crop"
      = Except.ok sq3 :=
  square_input_symmetry stubResize stubResize (fun _ => rfl) (fun _ => rfl)
    sq3 3 (255, 255, 255) rfl rfl
    (by intro i j h; simp only [sq3, mkImg] at h ⊢; rw [if_neg]; omega)

/-- The action of the regular expression substitution
`re.sub(r'\.(png|tiff|bmp)$', '.jpg', file)` (line 323) on the reversed
character list of the filename: the pattern is anchored at the end and
case-sensitive, so the substitution replaces a final `.png`, `.tiff` or
`.bmp` and leaves every other filename unchanged. -/
def replaceExtAux (r : List Char) : List Char :=
  match r with
  | 'g' :: 'n' :: 'p' :: '.' :: rest => 'g' :: 'p' :: 'j' :: '.' :: rest
  | 'f' :: 'f' :: 'i' :: 't' :: '.' :: rest => 'g' :: 'p' :: 'j' :: '.' :: rest
  | 'p' :: 'm' :: 'b' :: '.' :: rest => 'g' :: 'p' :: 'j' :: '.' :: rest
  | other => other

/-- The substitution of line 323 on a character list in reading order. -/
def replaceExtL (l : List Char) : List Char :=
  (replaceExtAux l.reverse).reverse

/-- The suggested output filename of line 323:
`re.sub(r'\.(png|tiff|bmp)$', '.jpg', file)`. -/
def replaceExt (file : String) : String :=
  ⟨replaceExtL file.data⟩

/-- One item of the `__main__` thumbnail loop, lines 316-328.  A source file
carries the identifier of the downloaded file, its decoded bitmap, whether
`Image.open` + `convert_to_jpeg` succeed (both are OUTSIDE the inner `try`),
and whether `thumbnail.save` succeeds (inside the `try`). -/
structure Source where
  name : String
  img : Img
  decodeOk : Bool
  saveOk : Bool

/-- The body of the thumbnail loop for one source file (lines 317-328).
`Image.open`/`convert_to_jpeg` failures (modelled by `decodeOk = false`)
raise an uncaught `Exception`; inside the `try`, an ordinary `Exception`
from `make_thumbnail` or `thumbnail.save` is caught and the item is merely
skipped (`none`), while the `SystemExit` that `make_thumbnail` raises on an
invalid mode is not caught by `except Exception` and propagates. -/
def processItem (resize fit : Img → Nat → Nat → Img) (mode : String)
    (s : Source) : Except PyErr (Option String) :=
  if s.decodeOk then
    match make_thumbnail resize fit s.img 200 (255, 255, 255) mode with
    | Except.error (PyErr.sysExit c) => Except.error (PyErr.sysExit c)
    | Except.error (PyErr.exc _) => Except.ok none
    | Except.ok _ =>
        if s.saveOk then Except.ok (some (replaceExt s.name))
        else Except.ok none
  else
    Except.error (PyErr.exc s.name)

/-- The `__main__` thumbnail loop, lines 316-328: builds `upload_list` in
source order; an uncaught error aborts the whole loop (and the run never
reaches the upload stage). -/
def thumbnailLoop (resize fit : Img → Nat → Nat → Img) (mode : String) :
    List Source → Except PyErr (List String)
  | [] => Except.ok []
  | s :: rest =>
    match processItem resize fit mode s with
    | Except.error e => Except.error e
    | Except.ok none => thumbnailLoop resize fit mode rest
    | Except.ok (some f) =>
      match thumbnailLoop resize fit mode rest with
      | Except.error e => Except.error e
      | Except.ok fs => Except.ok (f :: fs)

/-- A 1 × 1 black bitmap standing in for a decoded file. -/
def dummyImg : Img := mkImg 1 1 (fun _ _ => (0, 0, 0))

/-- First batch item: decodes and saves fine. -/
def srcA : Source := ⟨"a.png", dummyImg, true, true⟩

/-- Second batch item: fails at the decode stage. -/
def srcB : Source := ⟨"b.png", dummyImg, false, true⟩

/-- Third batch item: decodes and saves fine. -/
def srcC : Source := ⟨"c.png", dummyImg, true, true⟩

/-- Counterexample to C3: in a batch of three sources whose second fails at
decode, the loop does not produce the two thumbnails of sources 1 and 3 —
the decode failure happens OUTSIDE the per-item `try` (lines 318-319), so
the exception aborts the whole loop. -/
theorem batch_decode_failure_counterexample :
    thumbnailLoop stubResize stubResize "pad" [srcA, srcB, srcC]
      = Except.error (PyErr.exc "b.png")
    ∧ thumbnailLoop stubResize stubResize "pad" [srcA, srcB, srcC]
      ≠ Except.ok [replaceExt "a.png", replaceExt "c.png"] := by
  constructor
  · rfl
  · intro h
    exact Except.noConfusion
      ((show thumbnailLoop stubResize stubResize "pad" [srcA, srcB, srcC]
          = Except.error (PyErr.exc "b.png") from rfl).symm.trans h)

/-- C3 (amended): in the thumbnail loop, a failure at the generate or encode
(save) stage of one item is caught by the per-item `except Exception` and
the item is skipped, with the loop proceeding in order; but a failure at the
decode or normalize stage (lines 318-319, outside the `try`) is NOT caught
and aborts the loop with the exception. -/
theorem batch_failure_handling (resize fit : Img → Nat → Nat → Img)
    (s : Source) (rest : List Source) :
    (s.decodeOk = false →
      thumbnailLoop resize fit "pad" (s :: rest) = Except.error (PyErr.exc s.name))
    ∧ (s.decodeOk = true → s.saveOk = false →
      thumbnailLoop resize fit "pad" (s :: rest) = thumbnailLoop resize fit "pad" rest)
    ∧ (s.decodeOk = true → s.saveOk = true →
      thumbnailLoop resize fit "pad" (s :: rest)
        = (thumbnailLoop resize fit "pad" rest).map
            (fun fs => replaceExt s.name :: fs)) := by
  refine ⟨fun hdec => ?_, fun hdec hsave => ?_, fun hdec hsave => ?_⟩
  · simp [thumbnailLoop, processItem, hdec]
  · simp only [thumbnailLoop, processItem, hdec, if_true]
    rw [show make_thumbnail resize fit s.img 200 (255, 255, 255) "pad"
          = Except.ok (resize (padCanvas s.img 200 (255, 255, 255)) 200 200) from rfl]
    simp [hsave]
  · simp only [thumbnailLoop, processItem, hdec, if_true]
    rw [show make_thumbnail resize fit s.img 200 (255, 255, 255) "pad"
          = Except.ok (resize (padCanvas s.img 200 (255, 255, 255)) 200 200) from rfl]
    simp only [hsave, if_true]
    cases thumbnailLoop resize fit "pad" rest <;> rfl

/-- Witness for C3: a single-item batch whose item fails at decode aborts
the loop with the decode exception. -/
theorem batch_failure_handling_witness :
    thumbnailLoop stubResize stubResize "pad" [srcB]
      = Except.error (PyErr.exc "b.png") :=
  (batch_failure_handling stubResize stubResize srcB []).1 rfl

/-- C4: an unrecognized mode makes `make_thumbnail` fail through
`exit_error`, i.e. with `SystemExit(1)` — a fatal error that the per-item
`except Exception` handler does not catch, so the whole loop aborts with it
and no output is produced; it is never a per-item skip. -/
theorem invalid_mode_fatal (resize fit : Img → Nat → Nat → Img) (img : Img)
    (min_size : Nat) (fill : Rgb) (mode : String)
    (hpad : mode ≠ "pad") (hcrop : mode ≠ "crop")
    (s : Source) (rest : List Source) (hdec : s.decodeOk = true) :
    make_thumbnail resize fit img min_size fill mode
      = Except.error (PyErr.sysExit 1)
    ∧ thumbnailLoop resize fit mode (s :: rest)
      = Except.error (PyErr.sysExit 1) := by
  constructor
  · simp [make_thumbnail, hpad, hcrop]
  · simp [thumbnailLoop, processItem, hdec, make_thumbnail, hpad, hcrop]

/-- Witness for C4: mode `"fit"` on a decodable item aborts everything. -/
theorem invalid_mode_fatal_witness :
    make_thumbnail stubResize stubResize dummyImg 200 (255, 255, 255) "fit"
      = Except.error (PyErr.sysExit 1)
    ∧ thumbnailLoop stubResize stubResize "fit" [srcA]
      = Except.error (PyErr.sysExit 1) :=
  invalid_mode_fatal stubResize stubResize dummyImg 200 (255, 255, 255) "fit"
    (by decide) (by decide) srcA [] rfl

/-- Counterexample to C6: GIF is among the formats the pipeline accepts, but
the substitution pattern of line 323 lists only `png|tiff|bmp`, so a `.gif`
source keeps its `.gif` name instead of getting `.jpg`. -/
theorem gif_extension_counterexample :
    replaceExt "article1.gif" = "article1.gif"
    ∧ replaceExt "article1.gif" ≠ "article1.jpg" :=
  ⟨by decide, by decide⟩

/-- C6 (amended): the suggested output filename replaces the extension with
`.jpg` exactly when the source filename ends in lowercase `.png`, `.tiff` or
`.bmp`; filenames ending in `.gif` or `.jpeg` are left unchanged (a `.jpg`
source keeps `.jpg`, coincidentally matching the claim). -/
theorem output_filename_spec (stem : List Char) :
    replaceExtL (stem ++ ['.', 'p', 'n', 'g']) = stem ++ ['.', 'j', 'p', 'g']
    ∧ replaceExtL (stem ++ ['.', 't', 'i', 'f', 'f']) = stem ++ ['.', 'j', 'p', 'g']
    ∧ replaceExtL (stem ++ ['.', 'b', 'm', 'p']) = stem ++ ['.', 'j', 'p', 'g']
    ∧ replaceExt "a.gif" = "a.gif"
    ∧ replaceExt "a.jpeg" = "a.jpeg"
    ∧ replaceExt "a.jpg" = "a.jpg" := by
  refine ⟨?_, ?_, ?_, by decide, by decide, by decide⟩ <;>
    simp [replaceExtL, replaceExtAux, List.reverse_append]

/-- The attributes of a PIL image the colour normalizer reads and writes:
the declared source format (`None` for images PIL did not decode from a
file) and the colour mode string. -/
structure PilImage where
  format : Option String
  mode : String
deriving DecidableEq, Repr

/-- The `img.convert(mode=...)` call of PIL: returns a converted copy in the
requested mode; the copy has no declared source format. -/
def PilImage.convert (_img : PilImage) (mode : String) : PilImage :=
  ⟨none, mode⟩

/-- The `convert_to_jpeg` function (lines 204-215): returns the image
unchanged when its declared format is already JPEG, and otherwise the image
converted to RGB mode.  (CPython's `is not` on the interned literal
`'JPEG'` behaves as string inequality here.) -/
def convert_to_jpeg (img : PilImage) : PilImage :=
  if img.format ≠ some "JPEG" then img.convert "RGB" else img

/-- C5: the normalizer is the identity on images whose declared format is
JPEG and yields an RGB-mode image on every other input; it is total, with
no error conditions. -/
theorem convert_to_jpeg_spec (img : PilImage) :
    (img.format = some "JPEG" → convert_to_jpeg img = img)
    ∧ (img.format ≠ some "JPEG" → (convert_to_jpeg img).mode = "RGB") := by
  constructor
  · intro h
    simp [convert_to_jpeg, h]
  · intro h
    simp [convert_to_jpeg, h, PilImage.convert]

/-- Witness for C5: a JPEG-format image passes through unchanged; a
palette-mode PNG comes out in RGB mode. -/
theorem convert_to_jpeg_spec_witness :
    convert_to_jpeg ⟨some "JPEG", "CMYK"⟩ = ⟨some "JPEG", "CMYK"⟩
    ∧ (convert_to_jpeg ⟨some "PNG", "P"⟩).mode = "RGB" :=
  ⟨(convert_to_jpeg_spec ⟨some "JPEG", "CMYK"⟩).1 rfl,
   (convert_to_jpeg_spec ⟨some "PNG", "P"⟩).2 (by decide)⟩

/-- Python's `str.lstrip(chars)`: removes LEADING characters as long as each
belongs to the character SET `chars` — it does not remove a prefix
string. -/
def lstripSet (chars : List Char) : List Char → List Char
  | [] => []
  | c :: rest => if c ∈ chars then lstripSet chars rest else c :: rest

/-- The identifier the scraper derives from a DOI string at line 105:
`doi.lstrip('10.1038/')`. -/
def doiStrip (doi : String) : String :=
  ⟨lstripSet "10.1038/".data doi.data⟩

/-- C7 evaluation: on the real Nature DOI `10.1038/35051099` the `lstrip`
call keeps stripping past the registrant prefix (the suffix starts with
`3`, a character of the set `{1, 0, ., 3, 8, /}`), yielding `5051099`
instead of the claimed `35051099`; on a suffix starting with a letter the
two readings coincide. -/
theorem doi_lstrip_eval :
    doiStrip "10.1038/35051099" = "5051099"
    ∧ doiStrip "10.1038/35051099" ≠ "35051099"
    ∧ doiStrip "10.1038/srep12345" = "srep12345" :=
  ⟨by decide, by decide, by decide⟩

/-- The file-system facts the locking logic touches: whether
`/tmp/thumbnail_maker.lock` exists and whether the workspace directory
exists. -/
structure SysState where
  lockExists : Bool
  workspaceExists : Bool
deriving DecidableEq, Repr

/-- The `unlock` function (lines 263-265): removes the lock file if it
exists — whoever created it. -/
def unlock (s : SysState) : SysState :=
  if s.lockExists then { s with lockExists := false } else s

/-- The `lock` function (lines 259-260): writes the lock file. -/
def lock (s : SysState) : SysState :=
  { s with lockExists := true }

/-- The `check_requirements` function (lines 38-63) on a POSIX host: exits
via `exit_error` (`SystemExit(1)`) when the lock file already exists, and
otherwise recreates the workspace directory. -/
def check_requirements (s : SysState) : Except PyErr SysState :=
  if s.lockExists then Except.error (PyErr.sysExit 1)
  else Except.ok { s with workspaceExists := true }

/-- The `__main__` control flow around the lock (lines 268-345):
`check_requirements` runs first inside the `try`; on success the lock is
taken and the remainder of the script (`rest`, all the scraping and upload
work) runs, followed by `unlock()` at line 340; whatever happens, the
`finally` clause (lines 343-345) runs `unlock()` again.  The result is the
final file-system state together with the error the run aborted with, if
any. -/
def mainModel (rest : SysState → Except (SysState × PyErr) SysState)
    (s0 : SysState) : SysState × Option PyErr :=
  let body : Except (SysState × PyErr) SysState :=
    match check_requirements s0 with
    | Except.error e => Except.error (s0, e)
    | Except.ok s1 =>
      match rest (lock s1) with
      | Except.error (s2, e) => Except.error (s2, e)
      | Except.ok s2 => Except.ok (unlock s2)
  match body with
  | Except.error (s, e) => (unlock s, some e)
  | Except.ok s => (unlock s, none)

/-- C9: when the lock file already exists at startup, the run aborts with
the `SystemExit(1)` from `exit_error` — but the `finally` clause still calls
`unlock()`, which deletes the OTHER invocation's lock file, so after the
failed second invocation no lock file exists. -/
theorem stale_lock_removed
    (rest : SysState → Except (SysState × PyErr) SysState)
    (s0 : SysState) (hlock : s0.lockExists = true) :
    (mainModel rest s0).2 = some (PyErr.sysExit 1)
    ∧ (mainModel rest s0).1.lockExists = false := by
  simp [mainModel, check_requirements, hlock, unlock]

/-- Witness for C9: a start state holding another invocation's lock file. -/
theorem stale_lock_removed_witness :
    (mainModel (fun s => Except.ok s) ⟨true, false⟩).2
      = some (PyErr.sysExit 1)
    ∧ (mainModel (fun s => Except.ok s) ⟨true, false⟩).1.lockExists = false :=
  stale_lock_removed (fun s => Except.ok s) ⟨true, false⟩ rfl

/-- The `download_image` function (lines 150-172): derives the extension as
the last dot-segment of the last slash-segment of the link, builds the
destination path `WORKSPACE/<doi>.<extension>`, attempts the download with
every failure caught and logged, and returns the path unconditionally.  The
second component records whether the file was actually written. -/
def download_image (workspace doi link : String) (downloadOk : Bool) :
    String × Bool :=
  let file_extension := (link.splitOn "/").getLastD ""
  let file_extension := (file_extension.splitOn ".").getLastD ""
  let file_name := workspace ++ "/" ++ doi ++ "." ++ file_extension
  (file_name, downloadOk)

/-- C10: for every `(doi, link)` pair, `download_image` returns the
constructed destination path `WORKSPACE/<doi>.<extension>` whether or not
the download succeeded — the returned path of a failed download names a
file that was never written. -/
theorem download_image_path (workspace doi link : String) (ok : Bool) :
    (download_image workspace doi link ok).1
      = workspace ++ "/" ++ doi ++ "."
        ++ (((link.splitOn "/").getLastD "").splitOn ".").getLastD ""
    ∧ (download_image workspace doi link ok).1
      = (download_image workspace doi link true).1
    ∧ (download_image workspace doi link false).2 = false :=
  ⟨rfl, rfl, rfl⟩
